import Mathlib

/-!
Shallow embedding of the `embedded-error` crate: a vocabulary of
hardware-agnostic error taxonomies for embedded peripheral drivers.
The crate is pure data — nine Rust enums and no functions — so the
embedding consists of one Lean inductive per enum, plus the total
pattern-match functions (discriminant tags and payload extractors)
that a Rust consumer would write with `match`.

Source files embedded: `src/lib.rs` (ImplError and the five flat
peripheral taxonomies) and `src/mci.rs` (MciError, SetupError,
CommandOrDataError).
-/

/-- `ImplError` from `src/lib.rs`: universal implementation specific
errors, shared by every peripheral taxonomy. Nine payload-free variants. -/
inductive ImplError where
  | Internal
  | Disconnected
  | OutOfMemory
  | TimedOut
  | Asleep
  | PowerDown
  | InvalidConfiguration
  | CouldNotOpen
  | PermissionDenied
  deriving DecidableEq, Fintype, Repr

/-- `GpioError` from `src/lib.rs`. -/
inductive GpioError where
  | WrongMode
  | Impl (e : ImplError)
  deriving DecidableEq, Fintype, Repr

/-- `UsbError` from `src/lib.rs`. -/
inductive UsbError where
  | WouldBlock
  | ParseError
  | BufferOverflow
  | EndpointOverflow
  | EndpointMemoryOverflow
  | InvalidEndpoint
  | Unsupported
  | InvalidState
  | Impl (e : ImplError)
  deriving DecidableEq, Fintype, Repr

/-- `SpiError` from `src/lib.rs`. -/
inductive SpiError where
  | Overrun
  | ModeFault
  | CRCError
  | FrameFormat
  | Impl (e : ImplError)
  deriving DecidableEq, Fintype, Repr

/-- `SerialError` from `src/lib.rs`. -/
inductive SerialError where
  | Overrun
  | FrameFormat
  | Parity
  | Noise
  | Impl (e : ImplError)
  deriving DecidableEq, Fintype, Repr

/-- `I2cError` from `src/lib.rs`. -/
inductive I2cError where
  | Bus
  | ArbitrationLoss
  | NACK
  | Overrun
  | Underrun
  | PacketErrorChecking
  | Timeout
  | Alert
  | Impl (e : ImplError)
  deriving DecidableEq, Fintype, Repr

/-- `SetupError` from `src/mci.rs`: MCI device bring-up failures. -/
inductive SetupError where
  | CouldNotSetBusWidth
  | CouldNotSetToHighSpeed
  | CouldNotCheckIfIsHighSpeed
  deriving DecidableEq, Fintype, Repr

/-- `CommandOrDataError` from `src/mci.rs`: low-level bus signaling
failures used inside `MciError`. -/
inductive CommandOrDataError where
  | Timeout
  | Crc
  | EndBit
  | Index
  deriving DecidableEq, Fintype, Repr

/-- `MciError` from `src/mci.rs`: top-level taxonomy for MMC/SD
controllers, composing `CommandOrDataError`, `SetupError` and `ImplError`. -/
inductive MciError where
  | DataError (p : CommandOrDataError)
  | CommandInhibited
  | CommandError (p : CommandOrDataError)
  | Adma
  | GroupBusy
  | CiaCouldNotFindTuple
  | IncorrectDataSize
  | CouldNotSelectDevice
  | NoCard
  | UnusableCard
  | ReadError
  | WriteProtected
  | WriteError
  | PinLevelReadError
  | Setup (s : SetupError)
  | Impl (e : ImplError)
  deriving DecidableEq, Fintype, Repr

/-! ### Consumer-side pattern matches

A Rust consumer inspects these values with `match`. The functions below
are the total matches the claims talk about: a discriminant (`tag`)
distinguishing the declared variants of each taxonomy, and, for each
payload-carrying variant, the extractor that recovers the payload
(`none` on every other variant). -/

/-- Discriminant of `GpioError`: the index of the matched arm, in
declaration order of `src/lib.rs`. -/
def GpioError.tag : GpioError → Nat
  | .WrongMode => 0
  | .Impl _ => 1

/-- Discriminant of `UsbError`. -/
def UsbError.tag : UsbError → Nat
  | .WouldBlock => 0
  | .ParseError => 1
  | .BufferOverflow => 2
  | .EndpointOverflow => 3
  | .EndpointMemoryOverflow => 4
  | .InvalidEndpoint => 5
  | .Unsupported => 6
  | .InvalidState => 7
  | .Impl _ => 8

/-- Discriminant of `SpiError`. -/
def SpiError.tag : SpiError → Nat
  | .Overrun => 0
  | .ModeFault => 1
  | .CRCError => 2
  | .FrameFormat => 3
  | .Impl _ => 4

/-- Discriminant of `SerialError`. -/
def SerialError.tag : SerialError → Nat
  | .Overrun => 0
  | .FrameFormat => 1
  | .Parity => 2
  | .Noise => 3
  | .Impl _ => 4

/-- Discriminant of `I2cError`. -/
def I2cError.tag : I2cError → Nat
  | .Bus => 0
  | .ArbitrationLoss => 1
  | .NACK => 2
  | .Overrun => 3
  | .Underrun => 4
  | .PacketErrorChecking => 5
  | .Timeout => 6
  | .Alert => 7
  | .Impl _ => 8

/-- Discriminant of `ImplError`. -/
def ImplError.tag : ImplError → Nat
  | .Internal => 0
  | .Disconnected => 1
  | .OutOfMemory => 2
  | .TimedOut => 3
  | .Asleep => 4
  | .PowerDown => 5
  | .InvalidConfiguration => 6
  | .CouldNotOpen => 7
  | .PermissionDenied => 8

/-- Discriminant of `SetupError`. -/
def SetupError.tag : SetupError → Nat
  | .CouldNotSetBusWidth => 0
  | .CouldNotSetToHighSpeed => 1
  | .CouldNotCheckIfIsHighSpeed => 2

/-- Discriminant of `CommandOrDataError`. -/
def CommandOrDataError.tag : CommandOrDataError → Nat
  | .Timeout => 0
  | .Crc => 1
  | .EndBit => 2
  | .Index => 3

/-- Discriminant of `MciError`, in declaration order of `src/mci.rs`. -/
def MciError.tag : MciError → Nat
  | .DataError _ => 0
  | .CommandInhibited => 1
  | .CommandError _ => 2
  | .Adma => 3
  | .GroupBusy => 4
  | .CiaCouldNotFindTuple => 5
  | .IncorrectDataSize => 6
  | .CouldNotSelectDevice => 7
  | .NoCard => 8
  | .UnusableCard => 9
  | .ReadError => 10
  | .WriteProtected => 11
  | .WriteError => 12
  | .PinLevelReadError => 13
  | .Setup _ => 14
  | .Impl _ => 15

/-- Match out the `ImplError` payload of a `GpioError`, if any. -/
def GpioError.implPayload : GpioError → Option ImplError
  | .Impl e => some e
  | _ => none

/-- Match out the `ImplError` payload of a `UsbError`, if any. -/
def UsbError.implPayload : UsbError → Option ImplError
  | .Impl e => some e
  | _ => none

/-- Match out the `ImplError` payload of a `SpiError`, if any. -/
def SpiError.implPayload : SpiError → Option ImplError
  | .Impl e => some e
  | _ => none

/-- Match out the `ImplError` payload of a `SerialError`, if any. -/
def SerialError.implPayload : SerialError → Option ImplError
  | .Impl e => some e
  | _ => none

/-- Match out the `ImplError` payload of an `I2cError`, if any. -/
def I2cError.implPayload : I2cError → Option ImplError
  | .Impl e => some e
  | _ => none

/-- Match out the `ImplError` payload of an `MciError`, if any. -/
def MciError.implPayload : MciError → Option ImplError
  | .Impl e => some e
  | _ => none

/-- Match out the `CommandOrDataError` payload of `MciError.DataError`. -/
def MciError.dataPayload : MciError → Option CommandOrDataError
  | .DataError p => some p
  | _ => none

/-- Match out the `CommandOrDataError` payload of `MciError.CommandError`. -/
def MciError.commandPayload : MciError → Option CommandOrDataError
  | .CommandError p => some p
  | _ => none

/-- Match out the `SetupError` payload of `MciError.Setup`. -/
def MciError.setupPayload : MciError → Option SetupError
  | .Setup s => some s
  | _ => none

/-! ### Claims -/

/-- Claim C1: each of the six peripheral-facing taxonomies (GpioError,
UsbError, SpiError, SerialError, I2cError, MciError) has exactly one
variant carrying an `ImplError` payload, and that variant is `Impl`:
matching out an `ImplError` payload succeeds precisely on values built
with the `Impl` constructor, for every taxonomy. -/
theorem impl_escape_hatch_unique :
    (∀ x : GpioError, ∀ e : ImplError, x.implPayload = some e ↔ x = .Impl e) ∧
    (∀ x : UsbError, ∀ e : ImplError, x.implPayload = some e ↔ x = .Impl e) ∧
    (∀ x : SpiError, ∀ e : ImplError, x.implPayload = some e ↔ x = .Impl e) ∧
    (∀ x : SerialError, ∀ e : ImplError, x.implPayload = some e ↔ x = .Impl e) ∧
    (∀ x : I2cError, ∀ e : ImplError, x.implPayload = some e ↔ x = .Impl e) ∧
    (∀ x : MciError, ∀ e : ImplError, x.implPayload = some e ↔ x = .Impl e) := by
  decide

/-- Claim C2: for every top-level peripheral taxonomy and every one of the
nine `ImplError` cases, wrapping the case in the `Impl` variant and
matching it back out recovers exactly the case supplied. -/
theorem impl_wrap_unwrap_roundtrip :
    ∀ e : ImplError,
      (GpioError.Impl e).implPayload = some e ∧
      (UsbError.Impl e).implPayload = some e ∧
      (SpiError.Impl e).implPayload = some e ∧
      (SerialError.Impl e).implPayload = some e ∧
      (I2cError.Impl e).implPayload = some e ∧
      (MciError.Impl e).implPayload = some e := by
  decide

/-- Claim C3: in every taxonomy of the crate, every declared variant is
constructible (the discriminant is surjective onto the declared arm
indices) and any two values built from distinct variants are unequal,
even with equal payloads; in particular
`MciError.CommandError CommandOrDataError.Crc` and
`MciError.DataError CommandOrDataError.Crc` are distinct values that
both carry the inner cause `Crc`. -/
theorem variants_constructible_and_distinct :
    (∀ i : Fin 9, ∃ x : ImplError, x.tag = i.val) ∧
    (∀ x y : ImplError, x.tag ≠ y.tag → x ≠ y) ∧
    (∀ i : Fin 2, ∃ x : GpioError, x.tag = i.val) ∧
    (∀ x y : GpioError, x.tag ≠ y.tag → x ≠ y) ∧
    (∀ i : Fin 9, ∃ x : UsbError, x.tag = i.val) ∧
    (∀ x y : UsbError, x.tag ≠ y.tag → x ≠ y) ∧
    (∀ i : Fin 5, ∃ x : SpiError, x.tag = i.val) ∧
    (∀ x y : SpiError, x.tag ≠ y.tag → x ≠ y) ∧
    (∀ i : Fin 5, ∃ x : SerialError, x.tag = i.val) ∧
    (∀ x y : SerialError, x.tag ≠ y.tag → x ≠ y) ∧
    (∀ i : Fin 9, ∃ x : I2cError, x.tag = i.val) ∧
    (∀ x y : I2cError, x.tag ≠ y.tag → x ≠ y) ∧
    (∀ i : Fin 3, ∃ x : SetupError, x.tag = i.val) ∧
    (∀ x y : SetupError, x.tag ≠ y.tag → x ≠ y) ∧
    (∀ i : Fin 4, ∃ x : CommandOrDataError, x.tag = i.val) ∧
    (∀ x y : CommandOrDataError, x.tag ≠ y.tag → x ≠ y) ∧
    (∀ i : Fin 16, ∃ x : MciError, x.tag = i.val) ∧
    (∀ x y : MciError, x.tag ≠ y.tag → x ≠ y) ∧
    MciError.CommandError .Crc ≠ MciError.DataError .Crc ∧
    (MciError.CommandError .Crc).commandPayload = some .Crc ∧
    (MciError.DataError .Crc).dataPayload = some .Crc := by
  refine ⟨?_, ?_, ?_, ?_, ?_, ?_, ?_, ?_, ?_, ?_, ?_, ?_, ?_, ?_, ?_, ?_, ?_,
    ?_, ?_, ?_, ?_⟩ <;> decide

/-- Claim C4: `ImplError` consists of exactly the nine payload-free
variants listed in `src/lib.rs`, and `MciError` consists of exactly the
sixteen variants listed in `src/mci.rs` with exactly the listed payload
types: every value falls under one of the listed shapes, the listed
shapes are pairwise distinct (witnessed by pairwise distinct
discriminants), and the cardinalities are those of nine payload-free
variants and of twelve payload-free plus four payload-carrying variants
over `CommandOrDataError`, `SetupError` and `ImplError`. -/
theorem implError_and_mciError_exact_variants :
    (∀ x : ImplError, x = .Internal ∨ x = .Disconnected ∨ x = .OutOfMemory ∨
      x = .TimedOut ∨ x = .Asleep ∨ x = .PowerDown ∨ x = .InvalidConfiguration ∨
      x = .CouldNotOpen ∨ x = .PermissionDenied) ∧
    ([ImplError.Internal, .Disconnected, .OutOfMemory, .TimedOut, .Asleep,
      .PowerDown, .InvalidConfiguration, .CouldNotOpen, .PermissionDenied] :
      List ImplError).Nodup ∧
    Fintype.card ImplError = 9 ∧
    (∀ x : MciError,
      (∃ p : CommandOrDataError, x = .DataError p) ∨ x = .CommandInhibited ∨
      (∃ p : CommandOrDataError, x = .CommandError p) ∨ x = .Adma ∨
      x = .GroupBusy ∨ x = .CiaCouldNotFindTuple ∨ x = .IncorrectDataSize ∨
      x = .CouldNotSelectDevice ∨ x = .NoCard ∨ x = .UnusableCard ∨
      x = .ReadError ∨ x = .WriteProtected ∨ x = .WriteError ∨
      x = .PinLevelReadError ∨ (∃ s : SetupError, x = .Setup s) ∨
      (∃ e : ImplError, x = .Impl e)) ∧
    ([(MciError.DataError .Timeout).tag, MciError.CommandInhibited.tag,
      (MciError.CommandError .Timeout).tag, MciError.Adma.tag,
      MciError.GroupBusy.tag, MciError.CiaCouldNotFindTuple.tag,
      MciError.IncorrectDataSize.tag, MciError.CouldNotSelectDevice.tag,
      MciError.NoCard.tag, MciError.UnusableCard.tag, MciError.ReadError.tag,
      MciError.WriteProtected.tag, MciError.WriteError.tag,
      MciError.PinLevelReadError.tag, (MciError.Setup .CouldNotSetBusWidth).tag,
      (MciError.Impl .Internal).tag] : List Nat).Nodup ∧
    Fintype.card MciError = 12 + Fintype.card CommandOrDataError +
      Fintype.card CommandOrDataError + Fintype.card SetupError +
      Fintype.card ImplError := by
  refine ⟨?_, ?_, ?_, ?_, ?_, ?_⟩ <;> decide

/-- Claim C5: the sub-taxonomies `CommandOrDataError` and `SetupError`
have no `Impl`-style escape hatch: every value of either type is one of
the listed payload-free variants, so no variant carries an `ImplError`
(or any other) payload. -/
theorem sub_taxonomies_have_no_escape_hatch :
    (∀ x : CommandOrDataError,
      x = .Timeout ∨ x = .Crc ∨ x = .EndBit ∨ x = .Index) ∧
    (∀ x : SetupError, x = .CouldNotSetBusWidth ∨ x = .CouldNotSetToHighSpeed ∨
      x = .CouldNotCheckIfIsHighSpeed) := by
  decide

/-- Claim C6: construction and inspection are total for every taxonomy
in the crate: each constructor is defined at every payload of its
declared type (wrapping any payload lands in its declared match arm),
and the consumer-side match covers every value (the discriminant of any
value is one of the declared arm indices), so building or consuming
these values can never fail. -/
theorem construction_and_matching_total :
    (∀ e : ImplError, (GpioError.Impl e).tag = 1 ∧ (UsbError.Impl e).tag = 8 ∧
      (SpiError.Impl e).tag = 4 ∧ (SerialError.Impl e).tag = 4 ∧
      (I2cError.Impl e).tag = 8 ∧ (MciError.Impl e).tag = 15) ∧
    (∀ p : CommandOrDataError,
      (MciError.DataError p).tag = 0 ∧ (MciError.CommandError p).tag = 2) ∧
    (∀ s : SetupError, (MciError.Setup s).tag = 14) ∧
    (∀ x : ImplError, x.tag < 9) ∧
    (∀ x : GpioError, x.tag < 2) ∧
    (∀ x : UsbError, x.tag < 9) ∧
    (∀ x : SpiError, x.tag < 5) ∧
    (∀ x : SerialError, x.tag < 5) ∧
    (∀ x : I2cError, x.tag < 9) ∧
    (∀ x : SetupError, x.tag < 3) ∧
    (∀ x : CommandOrDataError, x.tag < 4) ∧
    (∀ x : MciError, x.tag < 16) := by
  refine ⟨?_, ?_, ?_, ?_, ?_, ?_, ?_, ?_, ?_, ?_, ?_, ?_⟩ <;> decide

/-- Claim C7: a bus timeout on an I2C read is reported as the
payload-free variant `I2cError.Timeout`: no `ImplError` payload can be
matched out of it, and it is a distinct value from `I2cError.Impl e`
for every `ImplError` case `e`, in particular from
`I2cError.Impl ImplError.TimedOut`. -/
theorem i2c_timeout_is_payload_free_and_distinct_from_impl :
    I2cError.Timeout.implPayload = none ∧
    (∀ e : ImplError, I2cError.Timeout ≠ I2cError.Impl e) ∧
    I2cError.Timeout ≠ I2cError.Impl ImplError.TimedOut := by
  decide

/-- Claim C9: in each of the five flat peripheral taxonomies, `Impl` is
the only payload-carrying variant: every value is either `Impl e` for
some `ImplError` case `e`, or one of the listed nullary constant
variants carrying no further data. -/
theorem flat_taxonomies_only_impl_carries_payload :
    (∀ x : GpioError, (∃ e : ImplError, x = .Impl e) ∨ x = .WrongMode) ∧
    (∀ x : UsbError, (∃ e : ImplError, x = .Impl e) ∨ x = .WouldBlock ∨
      x = .ParseError ∨ x = .BufferOverflow ∨ x = .EndpointOverflow ∨
      x = .EndpointMemoryOverflow ∨ x = .InvalidEndpoint ∨ x = .Unsupported ∨
      x = .InvalidState) ∧
    (∀ x : SpiError, (∃ e : ImplError, x = .Impl e) ∨ x = .Overrun ∨
      x = .ModeFault ∨ x = .CRCError ∨ x = .FrameFormat) ∧
    (∀ x : SerialError, (∃ e : ImplError, x = .Impl e) ∨ x = .Overrun ∨
      x = .FrameFormat ∨ x = .Parity ∨ x = .Noise) ∧
    (∀ x : I2cError, (∃ e : ImplError, x = .Impl e) ∨ x = .Bus ∨
      x = .ArbitrationLoss ∨ x = .NACK ∨ x = .Overrun ∨ x = .Underrun ∨
      x = .PacketErrorChecking ∨ x = .Timeout ∨ x = .Alert) := by
  refine ⟨?_, ?_, ?_, ?_, ?_⟩ <;> decide

/-- Claim C10: the four payload-carrying constructors of `MciError` —
`DataError`, `CommandError`, `Setup` and `Impl` — are injective (wrapped
values are equal exactly when the payloads are), and the inner cause is
fully recoverable from any wrapped value by matching. -/
theorem mci_payload_constructors_injective_and_recoverable :
    (∀ p q : CommandOrDataError,
      (MciError.DataError p = MciError.DataError q ↔ p = q) ∧
      (MciError.CommandError p = MciError.CommandError q ↔ p = q)) ∧
    (∀ s t : SetupError, MciError.Setup s = MciError.Setup t ↔ s = t) ∧
    (∀ e f : ImplError, MciError.Impl e = MciError.Impl f ↔ e = f) ∧
    (∀ p : CommandOrDataError, (MciError.DataError p).dataPayload = some p) ∧
    (∀ p : CommandOrDataError,
      (MciError.CommandError p).commandPayload = some p) ∧
    (∀ s : SetupError, (MciError.Setup s).setupPayload = some s) ∧
    (∀ e : ImplError, (MciError.Impl e).implPayload = some e) := by
  refine ⟨?_, ?_, ?_, ?_, ?_, ?_, ?_⟩ <;> decide
